import Mathlib

/-!
Verification of the vistela video-upload backend scaffold.

The development shallowly embeds the two core components:
* the Video Record Store (src/backend/app/db/db_service.py): the functions
  insert_video, get_video and list_videos over a PostgreSQL table of
  video records, together with their connection/cursor resource discipline;
* the Blob Store Client (src/backend/app/services/s3_service.py): the
  functions get_s3_client and upload_to_s3, in particular the construction
  of the S3 object key.

The committed state of the videos table is a list of rows in insertion
order.  Machine clock readings (datetime.utcnow) are passed in explicitly
as natural numbers.  Environment variables are optional strings, and the
Python truthiness test used by the source (None and the empty string are
falsy) is modelled by the function truthy.  Each database operation
returns, besides its Python return value or raised exception, the final
committed table state and a trace of which resources were opened and
closed, so that the resource-release discipline of the try/finally blocks
can be stated.  A boolean fault-injection parameter cursorFails models
conn.cursor() raising after the connection was acquired.
-/

namespace Vistela

/-- A row of the videos table, as documented in the schema comment of
db_service.py: video_id is the primary key, timestamps are set at insert. -/
structure VideoRecord where
  video_id : String
  user_id : String
  filename : String
  s3_key : String
  status : String
  created_at : Nat
  updated_at : Nat
deriving Repr, DecidableEq

/-- Committed state of the videos table: rows in insertion order. -/
abbrev DBState := List VideoRecord

/-- Database connection settings read from environment variables; a value
of none models a variable that is unset. -/
structure DBConfig where
  host : Option String
  user : Option String
  password : Option String
  name : Option String
deriving Repr, DecidableEq

/-- Python truthiness of an optional string: None and the empty string
are falsy, every other string is truthy. -/
def truthy : Option String → Bool
  | none => false
  | some s => !s.isEmpty

/-- The check all([DB_HOST, DB_USER, DB_PASS, DB_NAME]) performed by
get_db_connection before psycopg2.connect is attempted. -/
def dbConfigOk (cfg : DBConfig) : Bool :=
  truthy cfg.host && truthy cfg.user && truthy cfg.password && truthy cfg.name

/-- The exceptions the embedded operations can raise.  valueError is the
ValueError raised on missing configuration; integrityError is
psycopg2.IntegrityError on a primary-key conflict; nameError is the
NameError raised by the finally block when it touches the unbound local
cursor after conn.cursor() failed. -/
inductive PyError where
  | valueError
  | integrityError
  | nameError
deriving Repr, DecidableEq

/-- Outcome of one database operation: the Python return value or raised
exception, the committed table state afterwards, and which of the
connection and cursor were opened and closed by the time the call ended. -/
structure RunResult (α : Type) where
  result : Except PyError α
  state : DBState
  connOpened : Bool
  connClosed : Bool
  cursorOpened : Bool
  cursorClosed : Bool
deriving Repr

/-- Shallow embedding of insert_video (db_service.py, lines 75-144).
The caller supplies video_id, user_id, filename, s3_key and status; both
timestamps are taken from the clock reading now made inside the call
(datetime.utcnow()), never from the caller.  If configuration is missing,
get_db_connection raises ValueError before any connection is opened.  If
conn.cursor() fails (cursorFails), every handler re-raises and the finally
block evaluates cursor.close() on an unbound local, raising NameError and
skipping conn.close(): the connection is opened but never closed.
Otherwise the INSERT is one atomic statement: on a primary-key conflict it
raises IntegrityError, conn.rollback() leaves the committed state
unchanged, and the finally block closes cursor and connection; on success
the row is committed with created_at = updated_at = now and the function
returns True. -/
def insert_video (cfg : DBConfig) (st : DBState)
    (video_id user_id filename s3_key status : String)
    (now : Nat) (cursorFails : Bool) : RunResult Bool :=
  if !dbConfigOk cfg then
    ⟨.error .valueError, st, false, false, false, false⟩
  else if cursorFails then
    ⟨.error .nameError, st, true, false, false, false⟩
  else if st.any (fun r => r.video_id == video_id) then
    ⟨.error .integrityError, st, true, true, true, true⟩
  else
    ⟨.ok true, st ++ [⟨video_id, user_id, filename, s3_key, status, now, now⟩],
      true, true, true, true⟩

/-- Shallow embedding of get_video (db_service.py, lines 147-191): a
single-row SELECT by primary key; the first matching row is returned as a
complete record, and the function returns None when no row matches.
Configuration and cursor failures behave as in insert_video. -/
def get_video (cfg : DBConfig) (st : DBState) (video_id : String)
    (cursorFails : Bool) : RunResult (Option VideoRecord) :=
  if !dbConfigOk cfg then
    ⟨.error .valueError, st, false, false, false, false⟩
  else if cursorFails then
    ⟨.error .nameError, st, true, false, false, false⟩
  else
    ⟨.ok (st.find? (fun r => r.video_id == video_id)), st, true, true, true, true⟩

/-- The WHERE clause built by list_videos: a clause for user_id is added
only when the Python value user_id is truthy, and likewise for status;
the clauses are conjoined (AND). -/
def matchesFilters (user_id status : Option String) (r : VideoRecord) : Bool :=
  (if truthy user_id then r.user_id == user_id.getD "" else true) &&
  (if truthy status then r.status == status.getD "" else true)

/-- The ORDER BY created_at DESC comparison: a row sorts before another
when its created_at is at least as large. -/
def createdDescLe (a b : VideoRecord) : Bool :=
  decide (b.created_at ≤ a.created_at)

/-- Shallow embedding of list_videos (db_service.py, lines 194-251):
SELECT with the dynamically built WHERE clause, ORDER BY created_at DESC
and LIMIT.  Configuration and cursor failures behave as in insert_video. -/
def list_videos (cfg : DBConfig) (st : DBState) (user_id status : Option String)
    (lim : Nat) (cursorFails : Bool) : RunResult (List VideoRecord) :=
  if !dbConfigOk cfg then
    ⟨.error .valueError, st, false, false, false, false⟩
  else if cursorFails then
    ⟨.error .nameError, st, true, false, false, false⟩
  else
    ⟨.ok (((st.filter (matchesFilters user_id status)).mergeSort createdDescLe).take lim),
      st, true, true, true, true⟩

/-- S3 settings read from environment variables; none models unset. -/
structure S3Config where
  accessKeyId : Option String
  secretAccessKey : Option String
  bucketName : Option String
deriving Repr, DecidableEq

/-- The two checks performed by get_s3_client before any boto3 client is
built: access key and secret must be truthy, and so must the bucket name. -/
def s3ConfigOk (cfg : S3Config) : Bool :=
  truthy cfg.accessKeyId && truthy cfg.secretAccessKey && truthy cfg.bucketName

/-- Python folder.strip of the slash character: remove every leading and
every trailing slash from the string. -/
def stripSlashes (s : String) : String :=
  ⟨((s.data.dropWhile (· == '/')).reverse.dropWhile (· == '/')).reverse⟩

/-- The S3 object-key construction of upload_to_s3 (s3_service.py, lines
95-101): when the folder argument is truthy the key is the folder with
leading and trailing slashes stripped, a slash, and the filename;
otherwise the key is the filename verbatim. -/
def objectKey (filename : String) (folder : Option String) : String :=
  if truthy folder then stripSlashes (folder.getD "") ++ "/" ++ filename
  else filename

/-- Outcome of upload_to_s3: the returned key or raised exception, and
whether any network call (the upload itself) was attempted. -/
structure UploadResult where
  result : Except PyError String
  networkCalled : Bool
deriving Repr

/-- Shallow embedding of upload_to_s3 (s3_service.py, lines 65-163):
get_s3_client raises ValueError on missing configuration before any
network call; otherwise the object key is constructed and the stream is
uploaded under it. -/
def upload_to_s3 (cfg : S3Config) (filename : String) (folder : Option String) :
    UploadResult :=
  if !s3ConfigOk cfg then ⟨.error .valueError, false⟩
  else ⟨.ok (objectKey filename folder), true⟩

/-- A database configuration with every required variable set. -/
def okDbCfg : DBConfig := ⟨some "h", some "u", some "p", some "n"⟩

/-- An S3 configuration with every required variable set. -/
def okS3Cfg : S3Config := ⟨some "ak", some "sk", some "bucket"⟩

/-- The head of a list after dropWhile does not satisfy the predicate. -/
theorem head?_dropWhile_not (p : Char → Bool) :
    ∀ (l : List Char) (c : Char), (l.dropWhile p).head? = some c → p c = false := by
  intro l
  induction l with
  | nil => intro c h; simp [List.dropWhile] at h
  | cons x xs ih =>
    intro c h
    rw [List.dropWhile_cons] at h
    by_cases hp : p x = true
    · exact ih c (by simpa [hp] using h)
    · simp [hp] at h
      subst h
      simpa using hp

/-- dropWhile only removes a prefix, so a last element of the result is a
last element of the input. -/
theorem getLast?_dropWhile_eq (p : Char → Bool) :
    ∀ (l : List Char) (c : Char), (l.dropWhile p).getLast? = some c →
      l.getLast? = some c := by
  intro l
  induction l with
  | nil => intro c h; simp [List.dropWhile] at h
  | cons x xs ih =>
    intro c h
    rw [List.dropWhile_cons] at h
    by_cases hp : p x = true
    · rw [if_pos hp] at h
      have hxs := ih c h
      cases xs with
      | nil => simp at hxs
      | cons y ys => rw [List.getLast?_cons_cons]; exact hxs
    · rw [if_neg hp] at h
      exact h

/-- The stripped folder never starts with a slash. -/
theorem stripSlashes_head_ne_slash (s : String) (c : Char) :
    (stripSlashes s).data.head? = some c → c ≠ '/' := by
  intro h
  have h1 : ((s.data.dropWhile (· == '/')).reverse.dropWhile (· == '/')).getLast?
      = some c := by
    simpa [stripSlashes, List.head?_reverse] using h
  have h2 := getLast?_dropWhile_eq (· == '/') _ c h1
  rw [List.getLast?_reverse] at h2
  have h3 := head?_dropWhile_not (· == '/') s.data c h2
  simpa using h3

/-- The stripped folder never ends with a slash. -/
theorem stripSlashes_getLast_ne_slash (s : String) (c : Char) :
    (stripSlashes s).data.getLast? = some c → c ≠ '/' := by
  intro h
  have h1 : ((s.data.dropWhile (· == '/')).reverse.dropWhile (· == '/')).head?
      = some c := by
    simpa [stripSlashes, List.getLast?_reverse] using h
  have h3 := head?_dropWhile_not (· == '/') _ c h1
  simpa using h3

/-- C10: insert_video never returns False: despite its documented
True-or-False contract, every execution either returns True after a
successful commit or raises an exception; the False return is
unreachable, for any configuration, table state, arguments, clock
reading and cursor fault. -/
theorem insert_video_never_returns_false (cfg : DBConfig) (st : DBState)
    (v u f k s : String) (now : Nat) (cf : Bool) :
    (insert_video cfg st v u f k s now cf).result ≠ .ok false := by
  unfold insert_video
  split
  · simp
  · split
    · simp
    · split <;> simp

/-- C7: with any required configuration value unset (database host, user,
password or name for the record store; access key, secret or bucket name
for the blob client), every operation raises ValueError and neither a
database connection nor a network call is attempted. -/
theorem config_error_before_io (cfg : DBConfig) (s3cfg : S3Config) (st : DBState)
    (v u f k s : String) (now lim : Nat) (uid sid fold : Option String)
    (fn : String) (cf : Bool)
    (hdb : dbConfigOk cfg = false) (hs3 : s3ConfigOk s3cfg = false) :
    ((insert_video cfg st v u f k s now cf).result = .error .valueError ∧
      (insert_video cfg st v u f k s now cf).connOpened = false) ∧
    ((get_video cfg st v cf).result = .error .valueError ∧
      (get_video cfg st v cf).connOpened = false) ∧
    ((list_videos cfg st uid sid lim cf).result = .error .valueError ∧
      (list_videos cfg st uid sid lim cf).connOpened = false) ∧
    ((upload_to_s3 s3cfg fn fold).result = .error .valueError ∧
      (upload_to_s3 s3cfg fn fold).networkCalled = false) := by
  simp [insert_video, get_video, list_videos, upload_to_s3, hdb, hs3]

/-- Witness for C7 at a configuration whose database host and whose
bucket name are unset. -/
theorem config_error_before_io_witness :
    dbConfigOk ⟨none, some "u", some "p", some "n"⟩ = false ∧
    s3ConfigOk ⟨some "ak", some "sk", none⟩ = false ∧
    (insert_video ⟨none, some "u", some "p", some "n"⟩ [] "v" "u" "f" "k" "pending"
        0 false).result = .error .valueError ∧
    (upload_to_s3 ⟨some "ak", some "sk", none⟩ "a.mp4" none).result
        = .error .valueError :=
  ⟨by decide, by decide,
    (config_error_before_io ⟨none, some "u", some "p", some "n"⟩
      ⟨some "ak", some "sk", none⟩ [] "v" "u" "f" "k" "pending" 0 100 none none
      none "a.mp4" false (by decide) (by decide)).1.1,
    (config_error_before_io ⟨none, some "u", some "p", some "n"⟩
      ⟨some "ak", some "sk", none⟩ [] "v" "u" "f" "k" "pending" 0 100 none none
      none "a.mp4" false (by decide) (by decide)).2.2.2.1⟩

/-- C8: the claim that the connection is released on every exit path
fails on the cursor-creation path: when conn.cursor() raises after the
connection is acquired, the finally block touches the unbound local
cursor, raises NameError, and conn.close() is skipped — in each of the
three operations the connection is opened and never closed. -/
theorem cursor_fault_leaks_connection :
    ((insert_video okDbCfg [] "v" "u" "f" "k" "pending" 0 true).connOpened = true ∧
     (insert_video okDbCfg [] "v" "u" "f" "k" "pending" 0 true).connClosed = false ∧
     (insert_video okDbCfg [] "v" "u" "f" "k" "pending" 0 true).result
        = .error .nameError) ∧
    ((get_video okDbCfg [] "v" true).connOpened = true ∧
     (get_video okDbCfg [] "v" true).connClosed = false) ∧
    ((list_videos okDbCfg [] none none 100 true).connOpened = true ∧
     (list_videos okDbCfg [] none none 100 true).connClosed = false) := by
  refine ⟨⟨?_, ?_, ?_⟩, ⟨?_, ?_⟩, ⟨?_, ?_⟩⟩ <;> rfl

/-- C2: when a record with the same video_id already exists, a second
insert raises the distinguishable constraint-violation error
IntegrityError and the committed table state is unchanged: no partial
write, and the first record is untouched. -/
theorem insert_duplicate_conflict (cfg : DBConfig) (st : DBState)
    (v u f k s : String) (now : Nat)
    (hcfg : dbConfigOk cfg = true)
    (hdup : ∃ r ∈ st, r.video_id = v) :
    (insert_video cfg st v u f k s now false).result = .error .integrityError ∧
    (insert_video cfg st v u f k s now false).state = st := by
  have hany : st.any (fun r => r.video_id == v) = true := by
    rw [List.any_eq_true]
    rcases hdup with ⟨r, hr, hrv⟩
    exact ⟨r, hr, by simp [hrv]⟩
  simp [insert_video, hcfg, hany]

/-- Witness for C2: inserting the same video_id twice into a store that
already holds it.  -/
theorem insert_duplicate_conflict_witness :
    (insert_video okDbCfg [⟨"v1", "u0", "f0", "k0", "completed", 3, 3⟩]
        "v1" "u" "f" "k" "pending" 7 false).result = .error .integrityError ∧
    (insert_video okDbCfg [⟨"v1", "u0", "f0", "k0", "completed", 3, 3⟩]
        "v1" "u" "f" "k" "pending" 7 false).state
      = [⟨"v1", "u0", "f0", "k0", "completed", 3, 3⟩] :=
  insert_duplicate_conflict okDbCfg [⟨"v1", "u0", "f0", "k0", "completed", 3, 3⟩]
    "v1" "u" "f" "k" "pending" 7 (by decide)
    ⟨⟨"v1", "u0", "f0", "k0", "completed", 3, 3⟩, by simp, rfl⟩

/-- C3: with a working configuration, get_video on an absent video_id
returns None rather than raising, and on a present video_id it returns a
complete stored record with that id. -/
theorem get_video_semantics (cfg : DBConfig) (st : DBState) (v : String)
    (hcfg : dbConfigOk cfg = true) :
    ((∀ r ∈ st, r.video_id ≠ v) → (get_video cfg st v false).result = .ok none) ∧
    ((∃ r ∈ st, r.video_id = v) →
      ∃ r, (get_video cfg st v false).result = .ok (some r) ∧
        r ∈ st ∧ r.video_id = v) := by
  constructor
  · intro habs
    have hnone : st.find? (fun r => r.video_id == v) = none :=
      List.find?_eq_none.mpr (by intro x hx; simpa using habs x hx)
    simp [get_video, hcfg, hnone]
  · intro hex
    have hs : (st.find? (fun r => r.video_id == v)).isSome := by
      rw [List.find?_isSome]
      rcases hex with ⟨r, hr, hrv⟩
      exact ⟨r, hr, by simp [hrv]⟩
    rcases Option.isSome_iff_exists.mp hs with ⟨r, hfind⟩
    refine ⟨r, by simp [get_video, hcfg, hfind], List.mem_of_find?_eq_some hfind, ?_⟩
    simpa using List.find?_some hfind

/-- Witness for C3 on a one-record store: a missing id yields None and
the stored id is found. -/
theorem get_video_semantics_witness :
    (get_video okDbCfg [⟨"v1", "u1", "f1", "k1", "pending", 1, 1⟩] "nonexistent-id"
        false).result = .ok none ∧
    ∃ r, (get_video okDbCfg [⟨"v1", "u1", "f1", "k1", "pending", 1, 1⟩] "v1"
        false).result = .ok (some r) ∧
      r ∈ [⟨"v1", "u1", "f1", "k1", "pending", 1, 1⟩] ∧ r.video_id = "v1" :=
  ⟨(get_video_semantics okDbCfg [⟨"v1", "u1", "f1", "k1", "pending", 1, 1⟩]
      "nonexistent-id" (by decide)).1 (by intro r hr; simp at hr; simp [hr]),
   (get_video_semantics okDbCfg [⟨"v1", "u1", "f1", "k1", "pending", 1, 1⟩]
      "v1" (by decide)).2
     ⟨⟨"v1", "u1", "f1", "k1", "pending", 1, 1⟩, by simp, rfl⟩⟩

/-- C1: with a working configuration and a fresh video_id, insert_video
succeeds and a following get_video returns a record matching every
caller-supplied field, whose created_at and updated_at are both the
clock reading the store took during the insert call — the caller passes
no timestamps at all. -/
theorem insert_get_roundtrip (cfg : DBConfig) (st : DBState)
    (v u f k s : String) (now : Nat)
    (hcfg : dbConfigOk cfg = true)
    (hfresh : ∀ r ∈ st, r.video_id ≠ v) :
    (insert_video cfg st v u f k s now false).result = .ok true ∧
    ∃ r, (get_video cfg (insert_video cfg st v u f k s now false).state v
          false).result = .ok (some r) ∧
      r.video_id = v ∧ r.user_id = u ∧ r.filename = f ∧ r.s3_key = k ∧
      r.status = s ∧ r.created_at = now ∧ r.updated_at = now := by
  have hany : st.any (fun r => r.video_id == v) = false := by
    rw [List.any_eq_false]
    intro x hx
    simpa using hfresh x hx
  have hnone : st.find? (fun r => r.video_id == v) = none :=
    List.find?_eq_none.mpr (by intro x hx; simpa using hfresh x hx)
  refine ⟨by simp [insert_video, hcfg, hany], ⟨v, u, f, k, s, now, now⟩, ?_,
    rfl, rfl, rfl, rfl, rfl, rfl, rfl⟩
  simp [insert_video, get_video, hcfg, hany, List.find?_append, hnone]

/-- Witness for C1: a round trip through an empty store. -/
theorem insert_get_roundtrip_witness :
    (insert_video okDbCfg [] "v1" "u1" "a.mp4" "uploads/a.mp4" "pending" 42
        false).result = .ok true ∧
    ∃ r, (get_video okDbCfg (insert_video okDbCfg [] "v1" "u1" "a.mp4"
          "uploads/a.mp4" "pending" 42 false).state "v1" false).result
        = .ok (some r) ∧
      r.video_id = "v1" ∧ r.user_id = "u1" ∧ r.filename = "a.mp4" ∧
      r.s3_key = "uploads/a.mp4" ∧ r.status = "pending" ∧
      r.created_at = 42 ∧ r.updated_at = 42 :=
  insert_get_roundtrip okDbCfg [] "v1" "u1" "a.mp4" "uploads/a.mp4" "pending" 42
    (by decide) (by intro r hr; simp at hr)

/-- C4: list_videos never errors on a large match set; it returns a
sequence whose length is the minimum of the limit and the number of
matching rows — so with more matches than the limit it returns exactly
the limit many — and the sequence is ordered by descending created_at. -/
theorem list_limit_and_ordering (cfg : DBConfig) (st : DBState)
    (uid sid : Option String) (lim : Nat)
    (hcfg : dbConfigOk cfg = true) :
    ∃ l, (list_videos cfg st uid sid lim false).result = .ok l ∧
      l.length = min lim (st.filter (matchesFilters uid sid)).length ∧
      l.Pairwise (fun a b => b.created_at ≤ a.created_at) ∧
      (lim ≤ (st.filter (matchesFilters uid sid)).length → l.length = lim) := by
  have htrans : ∀ a b c : VideoRecord, createdDescLe a b = true →
      createdDescLe b c = true → createdDescLe a c = true := by
    intro a b c hab hbc
    simp only [createdDescLe, decide_eq_true_eq] at *
    omega
  have htotal : ∀ a b : VideoRecord,
      (createdDescLe a b || createdDescLe b a) = true := by
    intro a b
    simp only [createdDescLe, Bool.or_eq_true, decide_eq_true_eq]
    omega
  have hlen : (((st.filter (matchesFilters uid sid)).mergeSort
      createdDescLe).take lim).length
      = min lim (st.filter (matchesFilters uid sid)).length := by
    rw [List.length_take, List.length_mergeSort]
  have hsorted := List.sorted_mergeSort htrans htotal
    (st.filter (matchesFilters uid sid))
  have hpair := List.Pairwise.sublist (List.take_sublist lim _) hsorted
  refine ⟨_, by simp [list_videos, hcfg], hlen, ?_, fun h => by
    rw [hlen]; exact Nat.min_eq_left h⟩
  refine hpair.imp ?_
  intro a b h
  simpa [createdDescLe] using h

/-- Witness for C4 on a three-record store with limit two: two records
come back, newest first. -/
theorem list_limit_and_ordering_witness :
    ∃ l, (list_videos okDbCfg
        [⟨"v1", "u1", "f1", "k1", "pending", 1, 1⟩,
         ⟨"v2", "u1", "f2", "k2", "pending", 2, 2⟩,
         ⟨"v3", "u1", "f3", "k3", "pending", 3, 3⟩] (some "u1") none 2
        false).result = .ok l ∧
      l.length = min 2 ([⟨"v1", "u1", "f1", "k1", "pending", 1, 1⟩,
         ⟨"v2", "u1", "f2", "k2", "pending", 2, 2⟩,
         ⟨"v3", "u1", "f3", "k3", "pending", 3, 3⟩].filter
           (matchesFilters (some "u1") none)).length ∧
      l.Pairwise (fun a b : VideoRecord => b.created_at ≤ a.created_at) ∧
      (2 ≤ ([⟨"v1", "u1", "f1", "k1", "pending", 1, 1⟩,
         ⟨"v2", "u1", "f2", "k2", "pending", 2, 2⟩,
         ⟨"v3", "u1", "f3", "k3", "pending", 3, 3⟩].filter
           (matchesFilters (some "u1") none)).length → l.length = 2) :=
  list_limit_and_ordering okDbCfg
    [⟨"v1", "u1", "f1", "k1", "pending", 1, 1⟩,
     ⟨"v2", "u1", "f2", "k2", "pending", 2, 2⟩,
     ⟨"v3", "u1", "f3", "k3", "pending", 3, 3⟩] (some "u1") none 2 (by decide)

/-- A nonempty string is truthy. -/
theorem truthy_some_of_ne (t : String) (ht : t ≠ "") : truthy (some t) = true := by
  simp only [truthy]
  cases h : t.isEmpty
  · rfl
  · exact absurd ((String.isEmpty_iff t).mp h) ht

/-- C5: the optional filters of list_videos are conjoined equality
constraints and an absent filter imposes none: filtering by a (nonempty)
user yields exactly the rows of that user, filtering by a (nonempty)
status exactly the rows with that status, and giving both yields exactly
the rows matching both, whenever the limit does not truncate. -/
theorem list_filters_are_and_equality (cfg : DBConfig) (st : DBState)
    (u s : String) (lim : Nat)
    (hcfg : dbConfigOk cfg = true) (hu : u ≠ "") (hs : s ≠ "")
    (hlim : st.length ≤ lim) :
    (∃ l, (list_videos cfg st (some u) none lim false).result = .ok l ∧
       l.Perm (st.filter (fun r => r.user_id == u))) ∧
    (∃ l, (list_videos cfg st none (some s) lim false).result = .ok l ∧
       l.Perm (st.filter (fun r => r.status == s))) ∧
    (∃ l, (list_videos cfg st (some u) (some s) lim false).result = .ok l ∧
       l.Perm (st.filter (fun r => r.user_id == u && r.status == s))) := by
  have hn : truthy none = false := rfl
  have hm1 : matchesFilters (some u) none = fun r => r.user_id == u := by
    funext r
    simp [matchesFilters, truthy_some_of_ne u hu, hn]
  have hm2 : matchesFilters none (some s) = fun r => r.status == s := by
    funext r
    simp [matchesFilters, truthy_some_of_ne s hs, hn]
  have hm3 : matchesFilters (some u) (some s)
      = fun r => r.user_id == u && r.status == s := by
    funext r
    simp [matchesFilters, truthy_some_of_ne u hu, truthy_some_of_ne s hs]
  have key : ∀ (uid sid : Option String),
      ∃ l, (list_videos cfg st uid sid lim false).result = .ok l ∧
        l.Perm (st.filter (matchesFilters uid sid)) := by
    intro uid sid
    refine ⟨((st.filter (matchesFilters uid sid)).mergeSort createdDescLe).take lim,
      by simp [list_videos, hcfg], ?_⟩
    rw [List.take_of_length_le]
    · exact List.mergeSort_perm _ _
    · rw [List.length_mergeSort]
      exact le_trans (List.length_filter_le _ _) hlim
  refine ⟨?_, ?_, ?_⟩
  · obtain ⟨l, h1, h2⟩ := key (some u) none
    exact ⟨l, h1, by rwa [hm1] at h2⟩
  · obtain ⟨l, h1, h2⟩ := key none (some s)
    exact ⟨l, h1, by rwa [hm2] at h2⟩
  · obtain ⟨l, h1, h2⟩ := key (some u) (some s)
    exact ⟨l, h1, by rwa [hm3] at h2⟩

/-- Witness for C5 on the three-record example of the specification:
records (u1, completed), (u1, pending), (u2, completed). -/
theorem list_filters_are_and_equality_witness :
    (∃ l, (list_videos okDbCfg
        [⟨"a1", "u1", "fa", "ka", "completed", 1, 1⟩,
         ⟨"a2", "u1", "fb", "kb", "pending", 2, 2⟩,
         ⟨"a3", "u2", "fc", "kc", "completed", 3, 3⟩] (some "u1") none 100
        false).result = .ok l ∧
       l.Perm ([⟨"a1", "u1", "fa", "ka", "completed", 1, 1⟩,
         ⟨"a2", "u1", "fb", "kb", "pending", 2, 2⟩,
         ⟨"a3", "u2", "fc", "kc", "completed", 3, 3⟩].filter
           (fun r => r.user_id == "u1"))) ∧
    (∃ l, (list_videos okDbCfg
        [⟨"a1", "u1", "fa", "ka", "completed", 1, 1⟩,
         ⟨"a2", "u1", "fb", "kb", "pending", 2, 2⟩,
         ⟨"a3", "u2", "fc", "kc", "completed", 3, 3⟩] none (some "completed") 100
        false).result = .ok l ∧
       l.Perm ([⟨"a1", "u1", "fa", "ka", "completed", 1, 1⟩,
         ⟨"a2", "u1", "fb", "kb", "pending", 2, 2⟩,
         ⟨"a3", "u2", "fc", "kc", "completed", 3, 3⟩].filter
           (fun r => r.status == "completed"))) ∧
    (∃ l, (list_videos okDbCfg
        [⟨"a1", "u1", "fa", "ka", "completed", 1, 1⟩,
         ⟨"a2", "u1", "fb", "kb", "pending", 2, 2⟩,
         ⟨"a3", "u2", "fc", "kc", "completed", 3, 3⟩] (some "u1") (some "completed")
        100 false).result = .ok l ∧
       l.Perm ([⟨"a1", "u1", "fa", "ka", "completed", 1, 1⟩,
         ⟨"a2", "u1", "fb", "kb", "pending", 2, 2⟩,
         ⟨"a3", "u2", "fc", "kc", "completed", 3, 3⟩].filter
           (fun r => r.user_id == "u1" && r.status == "completed"))) :=
  list_filters_are_and_equality okDbCfg
    [⟨"a1", "u1", "fa", "ka", "completed", 1, 1⟩,
     ⟨"a2", "u1", "fb", "kb", "pending", 2, 2⟩,
     ⟨"a3", "u2", "fc", "kc", "completed", 3, 3⟩] "u1" "completed" 100
    (by decide) (by decide) (by decide) (by decide)

/-- C9: an empty-string filter behaves exactly like an absent filter: the
whole outcome of list_videos with user_id or status set to the empty
string equals the outcome with that filter omitted, for every store,
configuration, limit and fault. -/
theorem list_empty_filter_like_absent (cfg : DBConfig) (st : DBState)
    (lim : Nat) (cf : Bool) :
    (∀ sid : Option String,
      list_videos cfg st (some "") sid lim cf
        = list_videos cfg st none sid lim cf) ∧
    (∀ uid : Option String,
      list_videos cfg st uid (some "") lim cf
        = list_videos cfg st uid none lim cf) := by
  have he : truthy (some "") = false := rfl
  have hn : truthy none = false := rfl
  have hm1 : ∀ sid, matchesFilters (some "") sid = matchesFilters none sid := by
    intro sid
    funext r
    simp [matchesFilters, he, hn]
  have hm2 : ∀ uid, matchesFilters uid (some "") = matchesFilters uid none := by
    intro uid
    funext r
    simp [matchesFilters, he, hn]
  constructor
  · intro sid
    simp only [list_videos, hm1]
  · intro uid
    simp only [list_videos, hm2]

/-- C6: the upload key is the filename verbatim when no folder is given,
and otherwise the folder stripped of leading and trailing slashes, a
slash, and the filename; in particular uploading a.mp4 with folder
/uploads/ yields uploads/a.mp4, and with no folder yields a.mp4.  The
stripped folder neither starts nor ends with a slash. -/
theorem upload_key_construction :
    (upload_to_s3 okS3Cfg "a.mp4" (some "/uploads/")).result
        = .ok "uploads/a.mp4" ∧
    (upload_to_s3 okS3Cfg "a.mp4" none).result = .ok "a.mp4" ∧
    (∀ name : String, objectKey name none = name) ∧
    (∀ (name folder : String), folder ≠ "" →
      objectKey name (some folder) = stripSlashes folder ++ "/" ++ name) ∧
    (∀ (folder : String) (c : Char),
      ((stripSlashes folder).data.head? = some c → c ≠ '/') ∧
      ((stripSlashes folder).data.getLast? = some c → c ≠ '/')) := by
  refine ⟨?_, rfl, fun name => rfl, ?_, fun folder c =>
    ⟨stripSlashes_head_ne_slash folder c, stripSlashes_getLast_ne_slash folder c⟩⟩
  · have hok : s3ConfigOk okS3Cfg = true := by decide
    have ht : truthy (some "/uploads/") = true := by decide
    have hs : stripSlashes "/uploads/" = "uploads" := by decide
    have happ : ("uploads" ++ "/" ++ "a.mp4" : String) = "uploads/a.mp4" := by decide
    simp [upload_to_s3, hok, objectKey, ht, hs, happ]
  · intro name folder hf
    simp [objectKey, truthy_some_of_ne folder hf]

/-- Witness for C6: stripping the folder x/y changes nothing and the key
joins it to the filename. -/
theorem upload_key_construction_witness :
    ("x/y" : String) ≠ "" ∧
    objectKey "a.mp4" (some "x/y") = stripSlashes "x/y" ++ "/" ++ "a.mp4" :=
  ⟨by decide, upload_key_construction.2.2.2.1 "a.mp4" "x/y" (by decide)⟩

end Vistela
